import Mathlib

/-
Verification of the DDGI (Dynamic Diffuse Global Illumination) probe sampling
core. The HLSL source is embedded shallowly: unsigned integer arithmetic is
modelled with Nat (with an explicit modulus 2^32 where the 32-bit wrap-around
is semantically relevant), signed integers with Int, and the floating-point
vector math with the real numbers. The octahedral direction encoding and the
bilinear texture samplers are external collaborators of the core and enter as
abstract function parameters, matching the read-only interface the core
consumes. Grid dimension components are assumed positive (a zero probe count
yields garbage positions in the original through unsigned underflow and is
outside every stated property).
-/

namespace DDGI

open scoped Classical

set_option maxHeartbeats 1000000

noncomputable section

/-- Three-component unsigned integer vector (HLSL uint3). -/
@[ext]
structure NVec3 where
  x : ℕ
  y : ℕ
  z : ℕ

/-- Three-component signed integer vector (HLSL int3). -/
structure IVec3 where
  x : ℤ
  y : ℤ
  z : ℤ

/-- Three-component floating point vector, modelled over the reals. -/
structure Vec3 where
  x : ℝ
  y : ℝ
  z : ℝ

/-- Four-component floating point vector, modelled over the reals. -/
structure Vec4 where
  x : ℝ
  y : ℝ
  z : ℝ
  w : ℝ

def Vec4.xyz (v : Vec4) : Vec3 := ⟨v.x, v.y, v.z⟩

def Vec3.add (a b : Vec3) : Vec3 := ⟨a.x + b.x, a.y + b.y, a.z + b.z⟩

def Vec3.sub (a b : Vec3) : Vec3 := ⟨a.x - b.x, a.y - b.y, a.z - b.z⟩

def Vec3.neg (a : Vec3) : Vec3 := ⟨-a.x, -a.y, -a.z⟩

def Vec3.scale (a : Vec3) (r : ℝ) : Vec3 := ⟨a.x * r, a.y * r, a.z * r⟩

def Vec3.vabs (a : Vec3) : Vec3 := ⟨|a.x|, |a.y|, |a.z|⟩

def Vec3.dot (a b : Vec3) : ℝ := a.x * b.x + a.y * b.y + a.z * b.z

def Vec3.length (a : Vec3) : ℝ := Real.sqrt (Vec3.dot a a)

def Vec3.normalize (a : Vec3) : Vec3 :=
  ⟨a.x / Vec3.length a, a.y / Vec3.length a, a.z / Vec3.length a⟩

/-- Modelled from the spec: the engine math helper Square (the file
Math.hlsl it lives in is not part of the sources), squaring its argument. -/
def Square (r : ℝ) : ℝ := r * r

/-- Modelled from the spec: the engine math helper Min3 (from the missing
Math.hlsl), the minimum over the three axes of a vector. -/
def Min3 (v : Vec3) : ℝ := min v.x (min v.y v.z)

/-- HLSL saturate intrinsic: clamp to the unit interval. -/
def saturate (r : ℝ) : ℝ := min (max r 0) 1

/-- HLSL lerp intrinsic: linear interpolation x + s(y - x). -/
def lerp (a b t : ℝ) : ℝ := a + t * (b - a)

/-- The DDGI constant-buffer data (struct DDGIData in the source). The
per-cascade arrays of length 4 are modelled as functions from cascade index;
only indices below CascadesCount are meaningful. -/
structure DDGIData where
  ProbesOriginAndSpacing : ℕ → Vec4
  ProbesScrollOffsets : ℕ → IVec3
  ProbeScrollDirections : ℕ → IVec3
  ProbesCounts : NVec3
  CascadesCount : ℕ
  IrradianceGamma : ℝ
  ProbeHistoryWeight : ℝ
  RayMaxDistance : ℝ
  IndirectLightingIntensity : ℝ
  RaysRotation : Vec4
  ViewDir : Vec3
  RaysCount : ℕ
  FallbackIrradiance : Vec3
  Padding0 : ℝ

/-- The three read-only probe atlases the sampler consumes. The state atlas
is read with an integer texel Load; the distance and irradiance atlases are
read through a bilinear clamped sampler at normalized UV coordinates, which
the spec treats as an abstract sampling capability, so they are modelled as
functions from UV. -/
structure DDGITextures where
  state : ℕ × ℕ → Vec4
  distance : ℝ × ℝ → ℝ × ℝ
  irradiance : ℝ × ℝ → Vec3

/-- Flat probe index from 3D grid coordinates (source lines 41-47). Every
multiplication and addition is a uint32 operation, so each one wraps modulo
2^32. -/
def GetDDGIProbeIndex (data : DDGIData) (probeCoords : NVec3) : ℕ :=
  let probesPerPlane := (data.ProbesCounts.x * data.ProbesCounts.z) % 4294967296
  let planeIndex := probeCoords.y
  let probeIndexInPlane :=
    (probeCoords.x + (data.ProbesCounts.x * probeCoords.z) % 4294967296) % 4294967296
  ((planeIndex * probesPerPlane) % 4294967296 + probeIndexInPlane) % 4294967296

/-- 3D grid coordinates from flat probe index (source lines 57-64). The
divisor on the y component is the uint32 product of the x and z counts, so
it carries the same modulo 2^32 wrap. -/
def GetDDGIProbeCoords (data : DDGIData) (probeIndex : ℕ) : NVec3 :=
  ⟨probeIndex % data.ProbesCounts.x,
   probeIndex / ((data.ProbesCounts.x * data.ProbesCounts.z) % 4294967296),
   (probeIndex / data.ProbesCounts.x) % data.ProbesCounts.z⟩

/-- 2D texel block origin of a probe in the packed atlas (source lines 66-75). -/
def GetDDGIProbeTexelCoords (data : DDGIData) (cascadeIndex probeIndex : ℕ) : ℕ × ℕ :=
  let probesPerPlane := data.ProbesCounts.x * data.ProbesCounts.z
  let planeIndex := probeIndex / probesPerPlane
  let gridSpaceX := probeIndex % data.ProbesCounts.x
  let gridSpaceY := probeIndex / data.ProbesCounts.x
  (gridSpaceX + planeIndex * data.ProbesCounts.x,
   gridSpaceY % data.ProbesCounts.z + cascadeIndex * data.ProbesCounts.z)

/-- Reinterpretation of a signed 32-bit value as an unsigned 32-bit value,
as happens in HLSL when an int3 is added to a uint3. -/
def ddgiUInt32 (s : ℤ) : ℕ := (s % (4294967296 : ℤ)).toNat

/-- One component of the toroidal wrap (probeCoords + ProbesScrollOffsets +
ProbesCounts) % ProbesCounts evaluated in 32-bit unsigned arithmetic. -/
def ddgiWrapCoord (c : ℕ) (s : ℤ) (n : ℕ) : ℕ :=
  ((c + ddgiUInt32 s + n) % 4294967296) % n

/-- Scrolled (toroidal) probe index (source lines 77-81). -/
def GetDDGIScrollingProbeIndex (data : DDGIData) (cascadeIndex : ℕ) (probeCoords : NVec3) : ℕ :=
  GetDDGIProbeIndex data
    ⟨ddgiWrapCoord probeCoords.x (data.ProbesScrollOffsets cascadeIndex).x data.ProbesCounts.x,
     ddgiWrapCoord probeCoords.y (data.ProbesScrollOffsets cascadeIndex).y data.ProbesCounts.y,
     ddgiWrapCoord probeCoords.z (data.ProbesScrollOffsets cascadeIndex).z data.ProbesCounts.z⟩

/-- World-space position of a probe (source lines 83-90):
origin + coords * spacing - (spacing * (counts - 1)) * 0.5 + scroll * spacing. -/
def GetDDGIProbeWorldPosition (data : DDGIData) (cascadeIndex : ℕ) (probeCoords : NVec3) : Vec3 :=
  let probesOrigin := (data.ProbesOriginAndSpacing cascadeIndex).xyz
  let probesSpacing := (data.ProbesOriginAndSpacing cascadeIndex).w
  ⟨probesOrigin.x + (probeCoords.x : ℝ) * probesSpacing
     - probesSpacing * ((data.ProbesCounts.x - 1 : ℕ) : ℝ) * 0.5
     + ((data.ProbesScrollOffsets cascadeIndex).x : ℝ) * probesSpacing,
   probesOrigin.y + (probeCoords.y : ℝ) * probesSpacing
     - probesSpacing * ((data.ProbesCounts.y - 1 : ℕ) : ℝ) * 0.5
     + ((data.ProbesScrollOffsets cascadeIndex).y : ℝ) * probesSpacing,
   probesOrigin.z + (probeCoords.z : ℝ) * probesSpacing
     - probesSpacing * ((data.ProbesCounts.z - 1 : ℕ) : ℝ) * 0.5
     + ((data.ProbesScrollOffsets cascadeIndex).z : ℝ) * probesSpacing⟩

/-- UV for sampling a probe block in an atlas texture (source lines 110-119). -/
def GetDDGIProbeUV (data : DDGIData) (cascadeIndex probeIndex : ℕ)
    (octahedralCoords : ℝ × ℝ) (resolution : ℕ) : ℝ × ℝ :=
  let coords := GetDDGIProbeTexelCoords data cascadeIndex probeIndex
  let probeTexelSize : ℝ := (resolution : ℝ) + 2
  let textureSizeX : ℝ := ((data.ProbesCounts.x * data.ProbesCounts.y : ℕ) : ℝ) * probeTexelSize
  let textureSizeY : ℝ := ((data.ProbesCounts.z * data.CascadesCount : ℕ) : ℝ) * probeTexelSize
  (((coords.1 : ℝ) * probeTexelSize + probeTexelSize * 0.5
      + octahedralCoords.1 * ((resolution : ℝ) * 0.5)) / textureSizeX,
   ((coords.2 : ℝ) * probeTexelSize + probeTexelSize * 0.5
      + octahedralCoords.2 * ((resolution : ℝ) * 0.5)) / textureSizeY)

/-- Cascade fade weight from the selection loop of SampleDDGIIrradiance
(source lines 129-133): saturate of the axis-minimum of
probesExtent - abs(worldPosition - probesOrigin), divided by fadeDistance,
where probesOrigin folds the scroll offset into the cascade origin. -/
def ddgiCascadeWeight (data : DDGIData) (worldPosition : Vec3) (cascadeIndex : ℕ) : ℝ :=
  let probesSpacing := (data.ProbesOriginAndSpacing cascadeIndex).w
  let probesOrigin := Vec3.add
    (Vec3.scale ⟨((data.ProbesScrollOffsets cascadeIndex).x : ℝ),
                 ((data.ProbesScrollOffsets cascadeIndex).y : ℝ),
                 ((data.ProbesScrollOffsets cascadeIndex).z : ℝ)⟩ probesSpacing)
    (data.ProbesOriginAndSpacing cascadeIndex).xyz
  let probesExtent : Vec3 :=
    ⟨((data.ProbesCounts.x - 1 : ℕ) : ℝ) * (probesSpacing * 0.5),
     ((data.ProbesCounts.y - 1 : ℕ) : ℝ) * (probesSpacing * 0.5),
     ((data.ProbesCounts.z - 1 : ℕ) : ℝ) * (probesSpacing * 0.5)⟩
  let fadeDistance := probesSpacing * 0.5
  saturate (Min3 (Vec3.sub probesExtent (Vec3.vabs (Vec3.sub worldPosition probesOrigin)))
    / fadeDistance)

/-- The cascade selection loop (source lines 126-136): starting from index
k with the given number of remaining iterations, return the first index
whose fade weight exceeds the dither, or the index one past the last
examined cascade. -/
def ddgiSelectAux (data : DDGIData) (worldPosition : Vec3) (dither : ℝ) :
    ℕ → ℕ → ℕ
  | 0, k => k
  | fuel + 1, k =>
    if ddgiCascadeWeight data worldPosition k > dither then k
    else ddgiSelectAux data worldPosition dither fuel (k + 1)

/-- The cascade index SampleDDGIIrradiance settles on; equals CascadesCount
when no cascade accepted the sample position. -/
def ddgiSelectCascade (data : DDGIData) (worldPosition : Vec3) (dither : ℝ) : ℕ :=
  ddgiSelectAux data worldPosition dither data.CascadesCount 0

/-- Scrolled origin of a cascade as recomputed after selection (source
lines 140-141). -/
def ddgiProbesOrigin (data : DDGIData) (cascadeIndex : ℕ) : Vec3 :=
  let probesSpacing := (data.ProbesOriginAndSpacing cascadeIndex).w
  Vec3.add
    (Vec3.scale ⟨((data.ProbesScrollOffsets cascadeIndex).x : ℝ),
                 ((data.ProbesScrollOffsets cascadeIndex).y : ℝ),
                 ((data.ProbesScrollOffsets cascadeIndex).z : ℝ)⟩ probesSpacing)
    (data.ProbesOriginAndSpacing cascadeIndex).xyz

/-- Half extent of a cascade (source line 142). -/
def ddgiProbesExtent (data : DDGIData) (cascadeIndex : ℕ) : Vec3 :=
  let probesSpacing := (data.ProbesOriginAndSpacing cascadeIndex).w
  ⟨((data.ProbesCounts.x - 1 : ℕ) : ℝ) * (probesSpacing * 0.5),
   ((data.ProbesCounts.y - 1 : ℕ) : ℝ) * (probesSpacing * 0.5),
   ((data.ProbesCounts.z - 1 : ℕ) : ℝ) * (probesSpacing * 0.5)⟩

/-- Biased sample position (source lines 145-146):
worldPosition + worldNormal * bias + ViewDir * (bias * -4). -/
def ddgiBiasedWorldPosition (data : DDGIData) (worldPosition worldNormal : Vec3)
    (bias : ℝ) : Vec3 :=
  Vec3.add worldPosition
    (Vec3.add (Vec3.scale worldNormal bias) (Vec3.scale data.ViewDir (bias * (-4))))

/-- The Direct3D float-to-uint conversion applied by the uint3 cast in the
source: truncate toward zero, saturating to 0 below and to 2^32 - 1 above. -/
def ddgiFtoU (r : ℝ) : ℕ := min (Nat.floor r) 4294967295

/-- Grid coordinates of the base (lowest-corner) probe of the sample point
(source line 149): clamp(uint3((worldPosition - probesOrigin + probesExtent)
/ probesSpacing), 0, ProbesCounts - 1), componentwise. -/
def ddgiBaseProbeCoords (data : DDGIData) (cascadeIndex : ℕ)
    (worldPosition : Vec3) : NVec3 :=
  let probesSpacing := (data.ProbesOriginAndSpacing cascadeIndex).w
  let o := ddgiProbesOrigin data cascadeIndex
  let e := ddgiProbesExtent data cascadeIndex
  ⟨min (max (ddgiFtoU ((worldPosition.x - o.x + e.x) / probesSpacing)) 0)
     (data.ProbesCounts.x - 1),
   min (max (ddgiFtoU ((worldPosition.y - o.y + e.y) / probesSpacing)) 0)
     (data.ProbesCounts.y - 1),
   min (max (ddgiFtoU ((worldPosition.z - o.z + e.z) / probesSpacing)) 0)
     (data.ProbesCounts.z - 1)⟩

/-- Trilinear interpolation fraction (source line 151):
saturate((biasedWorldPosition - baseProbeWorldPosition) / probesSpacing). -/
def ddgiBiasAlpha (data : DDGIData) (cascadeIndex : ℕ)
    (worldPosition worldNormal : Vec3) (bias : ℝ) : Vec3 :=
  let probesSpacing := (data.ProbesOriginAndSpacing cascadeIndex).w
  let b := ddgiBiasedWorldPosition data worldPosition worldNormal bias
  let p := GetDDGIProbeWorldPosition data cascadeIndex
    (ddgiBaseProbeCoords data cascadeIndex worldPosition)
  ⟨saturate ((b.x - p.x) / probesSpacing),
   saturate ((b.y - p.y) / probesSpacing),
   saturate ((b.z - p.z) / probesSpacing)⟩

/-- Corner offset of loop iteration i (source line 157):
uint3(i, i >> 1, i >> 2) & 1. -/
def ddgiCornerOffset (i : ℕ) : NVec3 :=
  ⟨i &&& 1, (i >>> 1) &&& 1, (i >>> 2) &&& 1⟩

/-- Grid coordinates of corner probe i around a base coordinate (source
line 158): clamp(baseProbeCoords + offset, 0, ProbesCounts - 1). -/
def ddgiCornerCoords (data : DDGIData) (baseProbeCoords : NVec3) (i : ℕ) : NVec3 :=
  ⟨min (max (baseProbeCoords.x + (ddgiCornerOffset i).x) 0) (data.ProbesCounts.x - 1),
   min (max (baseProbeCoords.y + (ddgiCornerOffset i).y) 0) (data.ProbesCounts.y - 1),
   min (max (baseProbeCoords.z + (ddgiCornerOffset i).z) 0) (data.ProbesCounts.z - 1)⟩

/-- Probe position reconstructed incrementally inside the corner loop
(source line 165): baseProbeWorldPosition + (probeCoords - baseProbeCoords)
* probesSpacing, with the coordinate difference taken in unsigned arithmetic. -/
def ddgiIncrementalProbePosition (data : DDGIData) (cascadeIndex : ℕ)
    (baseProbeCoords probeCoords : NVec3) : Vec3 :=
  let probesSpacing := (data.ProbesOriginAndSpacing cascadeIndex).w
  let base := GetDDGIProbeWorldPosition data cascadeIndex baseProbeCoords
  ⟨base.x + ((probeCoords.x - baseProbeCoords.x : ℕ) : ℝ) * probesSpacing,
   base.y + ((probeCoords.y - baseProbeCoords.y : ℕ) : ℝ) * probesSpacing,
   base.z + ((probeCoords.z - baseProbeCoords.z : ℕ) : ℝ) * probesSpacing⟩

/-- The Chebyshev visibility step (source lines 184-189): when the biased
distance to the probe exceeds the sampled mean, scale the weight by
max(chebyshev^3, 0.05); otherwise leave it unchanged. -/
def ddgiVisibilityStep (weight biasedPosToProbeDist probeDistanceMean
    probeDistanceMean2 : ℝ) : ℝ :=
  if biasedPosToProbeDist > probeDistanceMean then
    let probeDistanceVariance := |Square probeDistanceMean - probeDistanceMean2|
    let chebyshevWeight := probeDistanceVariance /
      (probeDistanceVariance + Square (biasedPosToProbeDist - probeDistanceMean))
    weight * max (chebyshevWeight * chebyshevWeight * chebyshevWeight) 0.05
  else weight

/-- The per-probe weight pipeline of the corner loop (source lines 174-201):
smooth backface term, Chebyshev visibility, epsilon floor, low-weight cubic
boost, trilinear factor. -/
def ddgiProbeWeight (dotWN biasedPosToProbeDist probeDistanceMean
    probeDistanceMean2 : ℝ) (biasAlpha : Vec3) (offset : NVec3) : ℝ :=
  let weight := Square (dotWN * 0.5 + 0.5)
  let weight := ddgiVisibilityStep weight biasedPosToProbeDist
    probeDistanceMean probeDistanceMean2
  let weight := max weight 0.000001
  let weight := if weight < 0.2 then
    weight * (Square weight * (1 / (0.2 * 0.2))) else weight
  let trilinear : Vec3 :=
    ⟨lerp (1 - biasAlpha.x) biasAlpha.x ((offset.x : ℕ) : ℝ),
     lerp (1 - biasAlpha.y) biasAlpha.y ((offset.y : ℕ) : ℝ),
     lerp (1 - biasAlpha.z) biasAlpha.z ((offset.z : ℕ) : ℝ)⟩
  weight * max (trilinear.x * trilinear.y * trilinear.z) 0.001

/-- One iteration of the 8-corner accumulation loop (source lines 155-216),
returning the weighted irradiance contribution with the weight in the w
channel; an INACTIVE probe contributes the zero vector. -/
def ddgiCornerContribution (srgbBlending : Bool) (data : DDGIData)
    (texs : DDGITextures) (octFn : Vec3 → ℝ × ℝ)
    (worldPosition worldNormal : Vec3) (bias : ℝ) (cascadeIndex i : ℕ) : Vec4 :=
  let baseProbeCoords := ddgiBaseProbeCoords data cascadeIndex worldPosition
  let biasedWorldPosition := ddgiBiasedWorldPosition data worldPosition worldNormal bias
  let biasAlpha := ddgiBiasAlpha data cascadeIndex worldPosition worldNormal bias
  let probeCoordsOffset := ddgiCornerOffset i
  let probeCoords := ddgiCornerCoords data baseProbeCoords i
  let probeIndex := GetDDGIScrollingProbeIndex data cascadeIndex probeCoords
  let probeState := texs.state (GetDDGIProbeTexelCoords data cascadeIndex probeIndex)
  if probeState.w = 1 then ⟨0, 0, 0, 0⟩
  else
    let probeBasePosition :=
      ddgiIncrementalProbePosition data cascadeIndex baseProbeCoords probeCoords
    let probePosition := Vec3.add probeBasePosition probeState.xyz
    let worldPosToProbe := Vec3.normalize (Vec3.sub probePosition worldPosition)
    let biasedPosToProbe := Vec3.normalize (Vec3.sub probePosition biasedWorldPosition)
    let biasedPosToProbeDist := Vec3.length (Vec3.sub probePosition biasedWorldPosition)
    let octahedralCoordsD := octFn (Vec3.neg biasedPosToProbe)
    let uvD := GetDDGIProbeUV data cascadeIndex probeIndex octahedralCoordsD 14
    let probeDistance := ((texs.distance uvD).1 * 2, (texs.distance uvD).2 * 2)
    let weight := ddgiProbeWeight (Vec3.dot worldPosToProbe worldNormal)
      biasedPosToProbeDist probeDistance.1 probeDistance.2 biasAlpha probeCoordsOffset
    let octahedralCoordsI := octFn worldNormal
    let uvI := GetDDGIProbeUV data cascadeIndex probeIndex octahedralCoordsI 6
    let probeIrradianceRaw := texs.irradiance uvI
    let probeIrradiance := if srgbBlending then
      Vec3.mk (probeIrradianceRaw.x ^ (data.IrradianceGamma * 0.5))
        (probeIrradianceRaw.y ^ (data.IrradianceGamma * 0.5))
        (probeIrradianceRaw.z ^ (data.IrradianceGamma * 0.5))
      else probeIrradianceRaw
    ⟨probeIrradiance.x * weight, probeIrradiance.y * weight,
     probeIrradiance.z * weight, weight⟩

/-- SampleDDGIIrradiance (source lines 123-240). The srgbBlending flag is
the DDGI_SRGB_BLENDING compile-time switch of the source; both branches of
the conditional compilation are embedded. -/
def SampleDDGIIrradiance (srgbBlending : Bool) (data : DDGIData)
    (texs : DDGITextures) (octFn : Vec3 → ℝ × ℝ)
    (worldPosition worldNormal : Vec3) (bias dither : ℝ) : Vec3 :=
  let cascadeIndex := ddgiSelectCascade data worldPosition dither
  if cascadeIndex = data.CascadesCount then data.FallbackIrradiance
  else
    let irradiance : Vec4 :=
      ⟨Finset.sum (Finset.range 8) fun i =>
         (ddgiCornerContribution srgbBlending data texs octFn worldPosition
           worldNormal bias cascadeIndex i).x,
       Finset.sum (Finset.range 8) fun i =>
         (ddgiCornerContribution srgbBlending data texs octFn worldPosition
           worldNormal bias cascadeIndex i).y,
       Finset.sum (Finset.range 8) fun i =>
         (ddgiCornerContribution srgbBlending data texs octFn worldPosition
           worldNormal bias cascadeIndex i).z,
       Finset.sum (Finset.range 8) fun i =>
         (ddgiCornerContribution srgbBlending data texs octFn worldPosition
           worldNormal bias cascadeIndex i).w⟩
    if irradiance.w > 0 then
      let r : Vec3 := ⟨irradiance.x * (1 / irradiance.w),
        irradiance.y * (1 / irradiance.w), irradiance.z * (1 / irradiance.w)⟩
      let r2 := if srgbBlending then Vec3.mk (r.x * r.x) (r.y * r.y) (r.z * r.z) else r
      Vec3.mk (r2.x * (2 * Real.pi)) (r2.y * (2 * Real.pi)) (r2.z * (2 * Real.pi))
    else Vec3.mk irradiance.x irradiance.y irradiance.z

/-- The Chebyshev visibility step maps nonnegative weights to nonnegative
weights, whatever the sampled moments are. -/
lemma visibilityStep_nonneg (w d m m2 : ℝ) (hw : 0 ≤ w) :
    0 ≤ ddgiVisibilityStep w d m m2 := by
  by_cases h : d > m
  · simp only [ddgiVisibilityStep, if_pos h]
    exact mul_nonneg hw (le_trans (by norm_num) (le_max_right _ _))
  · simp only [ddgiVisibilityStep, if_neg h]
    exact hw

/-- The Chebyshev visibility step never increases a weight beyond one: the
Chebyshev ratio lies in the unit interval because the variance is taken in
absolute value and the denominator strictly dominates it. -/
lemma visibilityStep_le_one (w d m m2 : ℝ) (hw0 : 0 ≤ w) (hw1 : w ≤ 1) :
    ddgiVisibilityStep w d m m2 ≤ 1 := by
  by_cases h : d > m
  · simp only [ddgiVisibilityStep, if_pos h, Square]
    have hv0 : 0 ≤ |m * m - m2| := abs_nonneg _
    have hq : 0 < (d - m) * (d - m) := mul_pos (sub_pos.mpr h) (sub_pos.mpr h)
    have hden : 0 < |m * m - m2| + (d - m) * (d - m) := by linarith
    have hc0 : 0 ≤ |m * m - m2| / (|m * m - m2| + (d - m) * (d - m)) :=
      div_nonneg hv0 (le_of_lt hden)
    have hc1 : |m * m - m2| / (|m * m - m2| + (d - m) * (d - m)) ≤ 1 := by
      rw [div_le_one hden]
      linarith
    have hcube : |m * m - m2| / (|m * m - m2| + (d - m) * (d - m)) *
        (|m * m - m2| / (|m * m - m2| + (d - m) * (d - m))) *
        (|m * m - m2| / (|m * m - m2| + (d - m) * (d - m))) ≤ 1 :=
      mul_le_one₀ (mul_le_one₀ hc1 hc0 hc1) hc0 hc1
    exact mul_le_one₀ hw1 (le_trans (by norm_num) (le_max_right _ _))
      (max_le hcube (by norm_num))
  · simp only [ddgiVisibilityStep, if_neg h]
    exact hw1

/-- The per-probe weight is strictly positive for all inputs: the epsilon
floor, the cubic boost and the trilinear floor all preserve positivity. -/
lemma probeWeight_pos (dp d m m2 : ℝ) (a : Vec3) (o : NVec3) :
    0 < ddgiProbeWeight dp d m m2 a o := by
  simp only [ddgiProbeWeight]
  apply mul_pos
  · have h0 : 0 ≤ Square (dp * 0.5 + 0.5) := mul_self_nonneg _
    have h2 : (0 : ℝ) <
        max (ddgiVisibilityStep (Square (dp * 0.5 + 0.5)) d m m2) 0.000001 :=
      lt_of_lt_of_le (by norm_num) (le_max_right _ _)
    split_ifs with hb
    · simp only [Square]
      exact mul_pos h2 (mul_pos (mul_pos h2 h2) (by norm_num))
    · exact h2
  · exact lt_of_lt_of_le (by norm_num) (le_max_right _ _)

/-- One trilinear factor lies in the unit interval when the interpolation
fraction does and the corner offset bit is zero or one. -/
lemma lerp_unit (a : ℝ) (o : ℕ) (ha0 : 0 ≤ a) (ha1 : a ≤ 1) (ho : o ≤ 1) :
    0 ≤ lerp (1 - a) a (o : ℝ) ∧ lerp (1 - a) a (o : ℝ) ≤ 1 := by
  interval_cases o
  · simp only [lerp, Nat.cast_zero]
    constructor <;> nlinarith
  · simp only [lerp, Nat.cast_one]
    constructor <;> nlinarith

/-- The low-weight cubic boost keeps a weight from the unit interval inside
the unit interval: below the threshold the weight is multiplied by a factor
smaller than one. -/
lemma boost_le_one (M : ℝ) (hM0 : 0 < M) (hM1 : M ≤ 1) :
    (if M < 0.2 then M * (Square M * (1 / (0.2 * 0.2))) else M) ≤ 1 := by
  split_ifs with hb
  · simp only [Square]
    nlinarith
  · exact hM1

/-- Claim C9: for valid inputs (a dot product of unit vectors, nonnegative
distance and moments, an interpolation fraction in the unit cube and corner
offset bits) the per-probe weight is strictly positive and at most one, the
product of the theoretical maxima of the backface, visibility and trilinear
factors, even after the epsilon floor and the low-weight cubic boost. -/
theorem probe_weight_bounds (dp d m m2 : ℝ) (a : Vec3) (o : NVec3)
    (hdp1 : -1 ≤ dp) (hdp2 : dp ≤ 1)
    (hd : 0 ≤ d) (hm : 0 ≤ m) (hm2 : 0 ≤ m2)
    (hax0 : 0 ≤ a.x) (hax1 : a.x ≤ 1)
    (hay0 : 0 ≤ a.y) (hay1 : a.y ≤ 1)
    (haz0 : 0 ≤ a.z) (haz1 : a.z ≤ 1)
    (hox : o.x ≤ 1) (hoy : o.y ≤ 1) (hoz : o.z ≤ 1) :
    0 < ddgiProbeWeight dp d m m2 a o ∧ ddgiProbeWeight dp d m m2 a o ≤ 1 := by
  refine ⟨probeWeight_pos dp d m m2 a o, ?_⟩
  have h0a : 0 ≤ Square (dp * 0.5 + 0.5) := mul_self_nonneg _
  have h0b : Square (dp * 0.5 + 0.5) ≤ 1 := by
    simp only [Square]
    nlinarith
  have h1a : 0 ≤ ddgiVisibilityStep (Square (dp * 0.5 + 0.5)) d m m2 :=
    visibilityStep_nonneg _ _ _ _ h0a
  have h1b : ddgiVisibilityStep (Square (dp * 0.5 + 0.5)) d m m2 ≤ 1 :=
    visibilityStep_le_one _ _ _ _ h0a h0b
  have h2a : (0 : ℝ) <
      max (ddgiVisibilityStep (Square (dp * 0.5 + 0.5)) d m m2) 0.000001 :=
    lt_of_lt_of_le (by norm_num) (le_max_right _ _)
  have h2b : max (ddgiVisibilityStep (Square (dp * 0.5 + 0.5)) d m m2) 0.000001 ≤ 1 :=
    max_le h1b (by norm_num)
  obtain ⟨htx0, htx1⟩ := lerp_unit a.x o.x hax0 hax1 hox
  obtain ⟨hty0, hty1⟩ := lerp_unit a.y o.y hay0 hay1 hoy
  obtain ⟨htz0, htz1⟩ := lerp_unit a.z o.z haz0 haz1 hoz
  simp only [ddgiProbeWeight]
  set M := max (ddgiVisibilityStep (Square (dp * 0.5 + 0.5)) d m m2) 0.000001 with hM
  refine mul_le_one₀ (boost_le_one M h2a h2b) ?_ ?_
  · exact le_trans (by norm_num) (le_max_right _ _)
  · exact max_le (mul_le_one₀ (mul_le_one₀ htx1 hty0 hty1) htz0 htz1) (by norm_num)

theorem probe_weight_bounds_witness :
    0 < ddgiProbeWeight 0 1 2 3 ⟨0.5, 0.5, 0.5⟩ ⟨1, 0, 1⟩ ∧
    ddgiProbeWeight 0 1 2 3 ⟨0.5, 0.5, 0.5⟩ ⟨1, 0, 1⟩ ≤ 1 :=
  probe_weight_bounds 0 1 2 3 ⟨0.5, 0.5, 0.5⟩ ⟨1, 0, 1⟩ (by norm_num) (by norm_num)
    (by norm_num) (by norm_num) (by norm_num) (by norm_num) (by norm_num)
    (by norm_num) (by norm_num) (by norm_num) (by norm_num) (by decide) (by decide)
    (by decide)

/-- Fixed example configuration used to instantiate claims: a 2 x 3 x 4 grid
with two cascades and inert floating-point parameters. -/
def exampleData : DDGIData where
  ProbesOriginAndSpacing := fun _ => ⟨0, 0, 0, 1⟩
  ProbesScrollOffsets := fun _ => ⟨0, 0, 0⟩
  ProbeScrollDirections := fun _ => ⟨0, 0, 0⟩
  ProbesCounts := ⟨2, 3, 4⟩
  CascadesCount := 2
  IrradianceGamma := 5
  ProbeHistoryWeight := 0
  RayMaxDistance := 0
  IndirectLightingIntensity := 0
  RaysRotation := ⟨0, 0, 0, 0⟩
  ViewDir := ⟨0, 0, 1⟩
  RaysCount := 0
  FallbackIrradiance := ⟨0, 0, 0⟩
  Padding0 := 0

/-- One component of the toroidal wrap agrees with the mathematical modulus
of coordinate plus scroll offset, provided the scroll offset is at least the
negated count and the integer sum coordinate + offset + count stays below
2^32, so that the 32-bit wrap is cancelled exactly once. -/
lemma wrapCoord_spec (c n : ℕ) (s : ℤ) (hc : c < n) (hs : -(n : ℤ) ≤ s)
    (hb : (c : ℤ) + s + n < 4294967296) :
    ((ddgiWrapCoord c s n : ℕ) : ℤ) = ((c : ℤ) + s) % (n : ℤ) ∧
    ddgiWrapCoord c s n < n := by
  have hn : 0 < n := by omega
  constructor
  · unfold ddgiWrapCoord ddgiUInt32
    have h1 : ((s % 4294967296).toNat : ℤ) = s % 4294967296 :=
      Int.toNat_of_nonneg (Int.emod_nonneg s (by norm_num))
    have h2 : ((c + (s % 4294967296).toNat + n) % 4294967296 : ℕ) =
        ((c : ℤ) + s + n).toNat := by
      omega
    rw [h2]
    have h3 : ((((c : ℤ) + s + n).toNat : ℕ) : ℤ) = (c : ℤ) + s + n :=
      Int.toNat_of_nonneg (by omega)
    have h4 : (c : ℤ) + s + n = (c : ℤ) + s + 1 * n := by ring
    rw [Int.natCast_mod, h3, h4, Int.add_mul_emod_self]
  · exact Nat.mod_lt _ hn

/-- The assembled flat index of an in-grid coordinate triple, evaluated in
unbounded arithmetic, lies below the probe count product. -/
lemma assembled_lt (X Y Z cx cy cz : ℕ) (h1 : cx < X) (h2 : cy < Y) (h3 : cz < Z) :
    cy * (X * Z) + (cx + X * cz) < X * Y * Z := by
  have hplane : cx + X * cz + 1 ≤ X * Z := by
    calc cx + X * cz + 1 ≤ X + X * cz := by omega
      _ = X * (cz + 1) := by ring
      _ ≤ X * Z := Nat.mul_le_mul_left _ (by omega)
  calc cy * (X * Z) + (cx + X * cz)
      < cy * (X * Z) + X * Z := by omega
    _ = (cy + 1) * (X * Z) := by ring
    _ ≤ Y * (X * Z) := Nat.mul_le_mul_right _ (by omega)
    _ = X * Y * Z := by ring

/-- A coordinate triple inside the grid maps to a flat index below the probe
count product: each uint32 wrap can only decrease the assembled value. -/
lemma index_lt (data : DDGIData) (co : NVec3)
    (h1 : co.x < data.ProbesCounts.x) (h2 : co.y < data.ProbesCounts.y)
    (h3 : co.z < data.ProbesCounts.z) :
    GetDDGIProbeIndex data co <
      data.ProbesCounts.x * data.ProbesCounts.y * data.ProbesCounts.z := by
  have hassembled := assembled_lt data.ProbesCounts.x data.ProbesCounts.y
    data.ProbesCounts.z co.x co.y co.z h1 h2 h3
  simp only [GetDDGIProbeIndex]
  calc ((co.y * ((data.ProbesCounts.x * data.ProbesCounts.z) % 4294967296))
        % 4294967296
        + (co.x + (data.ProbesCounts.x * co.z) % 4294967296) % 4294967296)
        % 4294967296
      ≤ (co.y * ((data.ProbesCounts.x * data.ProbesCounts.z) % 4294967296))
          % 4294967296
        + (co.x + (data.ProbesCounts.x * co.z) % 4294967296) % 4294967296 :=
        Nat.mod_le _ _
    _ ≤ co.y * ((data.ProbesCounts.x * data.ProbesCounts.z) % 4294967296)
        + (co.x + (data.ProbesCounts.x * co.z) % 4294967296) :=
        Nat.add_le_add (Nat.mod_le _ _) (Nat.mod_le _ _)
    _ ≤ co.y * (data.ProbesCounts.x * data.ProbesCounts.z)
        + (co.x + data.ProbesCounts.x * co.z) :=
        Nat.add_le_add (Nat.mul_le_mul_left _ (Nat.mod_le _ _))
          (Nat.add_le_add_left (Nat.mod_le _ _) _)
    _ < data.ProbesCounts.x * data.ProbesCounts.y * data.ProbesCounts.z :=
        hassembled

/-- Claim C10 (amended): within the no-overflow band, the scrolled index is
the flat index of the componentwise mathematical modulus
(coords + scrollOffset) mod counts, and lies below the probe count product.
The extra hypothesis that coordinate + offset + count stays below 2^32 on
each axis is necessary, as the counterexample theorem shows. -/
theorem scrolling_index_math_mod (data : DDGIData) (cascadeIndex : ℕ) (c : NVec3)
    (hx : c.x < data.ProbesCounts.x) (hy : c.y < data.ProbesCounts.y)
    (hz : c.z < data.ProbesCounts.z)
    (hsx : -(data.ProbesCounts.x : ℤ) ≤ (data.ProbesScrollOffsets cascadeIndex).x)
    (hsy : -(data.ProbesCounts.y : ℤ) ≤ (data.ProbesScrollOffsets cascadeIndex).y)
    (hsz : -(data.ProbesCounts.z : ℤ) ≤ (data.ProbesScrollOffsets cascadeIndex).z)
    (hbx : (c.x : ℤ) + (data.ProbesScrollOffsets cascadeIndex).x
      + data.ProbesCounts.x < 4294967296)
    (hby : (c.y : ℤ) + (data.ProbesScrollOffsets cascadeIndex).y
      + data.ProbesCounts.y < 4294967296)
    (hbz : (c.z : ℤ) + (data.ProbesScrollOffsets cascadeIndex).z
      + data.ProbesCounts.z < 4294967296) :
    GetDDGIScrollingProbeIndex data cascadeIndex c =
      GetDDGIProbeIndex data
        ⟨(((c.x : ℤ) + (data.ProbesScrollOffsets cascadeIndex).x) %
            (data.ProbesCounts.x : ℤ)).toNat,
         (((c.y : ℤ) + (data.ProbesScrollOffsets cascadeIndex).y) %
            (data.ProbesCounts.y : ℤ)).toNat,
         (((c.z : ℤ) + (data.ProbesScrollOffsets cascadeIndex).z) %
            (data.ProbesCounts.z : ℤ)).toNat⟩ ∧
    GetDDGIScrollingProbeIndex data cascadeIndex c <
      data.ProbesCounts.x * data.ProbesCounts.y * data.ProbesCounts.z := by
  obtain ⟨ex, lx⟩ := wrapCoord_spec c.x data.ProbesCounts.x
    (data.ProbesScrollOffsets cascadeIndex).x hx hsx hbx
  obtain ⟨ey, ly⟩ := wrapCoord_spec c.y data.ProbesCounts.y
    (data.ProbesScrollOffsets cascadeIndex).y hy hsy hby
  obtain ⟨ez, lz⟩ := wrapCoord_spec c.z data.ProbesCounts.z
    (data.ProbesScrollOffsets cascadeIndex).z hz hsz hbz
  constructor
  · unfold GetDDGIScrollingProbeIndex
    refine congrArg (GetDDGIProbeIndex data) ?_
    rw [NVec3.mk.injEq]
    refine ⟨by omega, by omega, by omega⟩
  · unfold GetDDGIScrollingProbeIndex
    exact index_lt data _ lx ly lz

/-- Configuration exhibiting the 32-bit overflow of the wrap expression: an
astronomically wide grid together with the largest representable positive
scroll offset. -/
def cexData : DDGIData where
  ProbesOriginAndSpacing := fun _ => ⟨0, 0, 0, 0⟩
  ProbesScrollOffsets := fun _ => ⟨2147483647, 0, 0⟩
  ProbeScrollDirections := fun _ => ⟨0, 0, 0⟩
  ProbesCounts := ⟨2147483649, 1, 1⟩
  CascadesCount := 1
  IrradianceGamma := 0
  ProbeHistoryWeight := 0
  RayMaxDistance := 0
  IndirectLightingIntensity := 0
  RaysRotation := ⟨0, 0, 0, 0⟩
  ViewDir := ⟨0, 0, 1⟩
  RaysCount := 0
  FallbackIrradiance := ⟨0, 0, 0⟩
  Padding0 := 0

/-- Claim C10 counterexample: with counts (2147483649, 1, 1), scroll offset
(2147483647, 0, 0) and coordinates (2147483648, 0, 0) all the hypotheses of
the claim hold (coordinates inside the grid, offsets at least the negated
counts), yet the 32-bit evaluation of the wrap expression differs from the
flat index of the mathematical modulus, because the intermediate sum
overflows 2^32 and 2^32 is not a multiple of the count. -/
theorem scrolling_index_uint32_counterexample :
    (2147483648 : ℕ) < cexData.ProbesCounts.x ∧
    -(cexData.ProbesCounts.x : ℤ) ≤ (cexData.ProbesScrollOffsets 0).x ∧
    GetDDGIScrollingProbeIndex cexData 0 ⟨2147483648, 0, 0⟩ ≠
      GetDDGIProbeIndex cexData
        ⟨((((2147483648 : ℕ) : ℤ) + (cexData.ProbesScrollOffsets 0).x) %
            (cexData.ProbesCounts.x : ℤ)).toNat,
         ((((0 : ℕ) : ℤ) + (cexData.ProbesScrollOffsets 0).y) %
            (cexData.ProbesCounts.y : ℤ)).toNat,
         ((((0 : ℕ) : ℤ) + (cexData.ProbesScrollOffsets 0).z) %
            (cexData.ProbesCounts.z : ℤ)).toNat⟩ := by
  refine ⟨by decide, by decide, by decide⟩

/-- Configuration with a mixed-sign scroll offset used to instantiate the
amended scrolling claim. -/
def exampleScrollData : DDGIData :=
  { exampleData with ProbesScrollOffsets := fun _ => ⟨-1, -3, 5⟩ }

theorem scrolling_index_math_mod_witness :
    GetDDGIScrollingProbeIndex exampleScrollData 0 ⟨1, 2, 3⟩ =
      GetDDGIProbeIndex exampleScrollData
        ⟨((((1 : ℕ) : ℤ) + (exampleScrollData.ProbesScrollOffsets 0).x) %
            (exampleScrollData.ProbesCounts.x : ℤ)).toNat,
         ((((2 : ℕ) : ℤ) + (exampleScrollData.ProbesScrollOffsets 0).y) %
            (exampleScrollData.ProbesCounts.y : ℤ)).toNat,
         ((((3 : ℕ) : ℤ) + (exampleScrollData.ProbesScrollOffsets 0).z) %
            (exampleScrollData.ProbesCounts.z : ℤ)).toNat⟩ ∧
    GetDDGIScrollingProbeIndex exampleScrollData 0 ⟨1, 2, 3⟩ <
      exampleScrollData.ProbesCounts.x * exampleScrollData.ProbesCounts.y *
        exampleScrollData.ProbesCounts.z :=
  scrolling_index_math_mod exampleScrollData 0 ⟨1, 2, 3⟩ (by decide) (by decide)
    (by decide) (by decide) (by decide) (by decide) (by decide) (by decide) (by decide)

/-- Fixed example textures: every probe ACTIVE with zero relocation, a
constant distance atlas and a constant irradiance atlas. -/
def exampleTextures : DDGITextures where
  state := fun _ => ⟨0, 0, 0, 0⟩
  distance := fun _ => (100, 10000)
  irradiance := fun _ => ⟨1, 1, 1⟩

/-- Fixed stand-in for the external octahedral encoder. -/
def exampleOct : Vec3 → ℝ × ℝ := fun _ => (0, 0)

/-- The cascade fade weight exactly as the spec words it: clamp to [0,1] of
min-over-axes(extent - |worldPos - origin|) / fadeDistance, with
extent = 0.5 spacing (counts - 1) and fadeDistance = 0.5 spacing, the origin
being the scrolled origin of the cascade. -/
def ddgiSpecFadeWeight (data : DDGIData) (worldPosition : Vec3) (k : ℕ) : ℝ :=
  let spacing := (data.ProbesOriginAndSpacing k).w
  let origin := ddgiProbesOrigin data k
  let extent : Vec3 :=
    ⟨0.5 * spacing * ((data.ProbesCounts.x - 1 : ℕ) : ℝ),
     0.5 * spacing * ((data.ProbesCounts.y - 1 : ℕ) : ℝ),
     0.5 * spacing * ((data.ProbesCounts.z - 1 : ℕ) : ℝ)⟩
  let fadeDistance := 0.5 * spacing
  min (max (Min3 (Vec3.sub extent (Vec3.vabs (Vec3.sub worldPosition origin)))
    / fadeDistance) 0) 1

/-- The fade weight of the spec and the cascade weight computed by the
selection loop are the same function. -/
lemma specFadeWeight_eq (data : DDGIData) (worldPosition : Vec3) (k : ℕ) :
    ddgiSpecFadeWeight data worldPosition k = ddgiCascadeWeight data worldPosition k := by
  simp only [ddgiSpecFadeWeight, ddgiCascadeWeight, ddgiProbesOrigin, saturate,
    Min3, Vec3.sub, Vec3.vabs, Vec3.add, Vec3.scale, Vec4.xyz]
  ring_nf

/-- Characterization of the cascade selection loop: the result lies between
the start index and the fuel bound, accepts its cascade when it stopped
early, and every skipped cascade was rejected. -/
lemma selectAux_spec (data : DDGIData) (worldPosition : Vec3) (dither : ℝ) :
    ∀ fuel k, k ≤ ddgiSelectAux data worldPosition dither fuel k ∧
      ddgiSelectAux data worldPosition dither fuel k ≤ k + fuel ∧
      (ddgiSelectAux data worldPosition dither fuel k < k + fuel →
        ddgiCascadeWeight data worldPosition
          (ddgiSelectAux data worldPosition dither fuel k) > dither) ∧
      (∀ j, k ≤ j → j < ddgiSelectAux data worldPosition dither fuel k →
        ¬ ddgiCascadeWeight data worldPosition j > dither) := by
  intro fuel
  induction fuel with
  | zero =>
    intro k
    simp only [ddgiSelectAux]
    exact ⟨le_rfl, by omega, fun h => absurd h (by omega),
      fun j h1 h2 => absurd h2 (by omega)⟩
  | succ fuel ih =>
    intro k
    by_cases hw : ddgiCascadeWeight data worldPosition k > dither
    · simp only [ddgiSelectAux, if_pos hw]
      exact ⟨le_rfl, by omega, fun _ => hw, fun j h1 h2 => absurd h2 (by omega)⟩
    · simp only [ddgiSelectAux, if_neg hw]
      obtain ⟨a1, a2, a3, a4⟩ := ih (k + 1)
      refine ⟨by omega, by omega, fun h => a3 (by omega), ?_⟩
      intro j h1 h2
      rcases Nat.eq_or_lt_of_le h1 with rfl | h1x
      · exact hw
      · exact a4 j (by omega) h2

/-- Claim C1: SampleDDGIIrradiance examines the cascades in ascending order
and settles on the first cascade whose spec fade weight strictly exceeds the
dither value; when no cascade qualifies, it returns exactly the fallback
irradiance with no further processing. -/
theorem cascade_selection_first_match (srgbBlending : Bool) (data : DDGIData)
    (texs : DDGITextures) (octFn : Vec3 → ℝ × ℝ)
    (worldPosition worldNormal : Vec3) (bias dither : ℝ)
    (hc1 : 1 ≤ data.CascadesCount) (hc4 : data.CascadesCount ≤ 4)
    (hd0 : 0 ≤ dither) (hd1 : dither < 1) :
    ddgiSelectCascade data worldPosition dither ≤ data.CascadesCount ∧
    (ddgiSelectCascade data worldPosition dither < data.CascadesCount →
      ddgiSpecFadeWeight data worldPosition
        (ddgiSelectCascade data worldPosition dither) > dither ∧
      ∀ j < ddgiSelectCascade data worldPosition dither,
        ¬ ddgiSpecFadeWeight data worldPosition j > dither) ∧
    ((∃ k, k < data.CascadesCount ∧ ddgiSpecFadeWeight data worldPosition k > dither) →
      ddgiSelectCascade data worldPosition dither < data.CascadesCount) ∧
    ((∀ k, k < data.CascadesCount → ¬ ddgiSpecFadeWeight data worldPosition k > dither) →
      SampleDDGIIrradiance srgbBlending data texs octFn worldPosition worldNormal
        bias dither = data.FallbackIrradiance) := by
  obtain ⟨a1, a2, a3, a4⟩ :=
    selectAux_spec data worldPosition dither data.CascadesCount 0
  simp only [ddgiSelectCascade]
  simp only [Nat.zero_add] at a2 a3
  refine ⟨a2, ?_, ?_, ?_⟩
  · intro h
    simp only [specFadeWeight_eq]
    exact ⟨a3 h, fun j hj => a4 j (Nat.zero_le j) hj⟩
  · rintro ⟨k, hk, hwk⟩
    rw [specFadeWeight_eq] at hwk
    by_contra hnot
    exact a4 k (Nat.zero_le k) (by omega) hwk
  · intro hall
    have hsel : ddgiSelectAux data worldPosition dither data.CascadesCount 0 =
        data.CascadesCount := by
      by_contra hne
      have hlt : ddgiSelectAux data worldPosition dither data.CascadesCount 0 <
          data.CascadesCount := by omega
      exact hall _ hlt (by rw [specFadeWeight_eq]; exact a3 hlt)
    simp only [SampleDDGIIrradiance, ddgiSelectCascade, hsel, if_pos]

theorem cascade_selection_first_match_witness :
    SampleDDGIIrradiance false exampleData exampleTextures exampleOct
      ⟨100, 100, 100⟩ ⟨0, 1, 0⟩ 0 0 = exampleData.FallbackIrradiance :=
  (cascade_selection_first_match false exampleData exampleTextures exampleOct
    ⟨100, 100, 100⟩ ⟨0, 1, 0⟩ 0 0 (by decide) (by decide) (by norm_num)
    (by norm_num)).2.2.2 (by
      intro k hk
      simp only [ddgiSpecFadeWeight, ddgiProbesOrigin, exampleData, Min3,
        Vec3.sub, Vec3.vabs, Vec3.add, Vec3.scale, Vec4.xyz]
      norm_num [min_def, max_def])

/-- The selection loop stops immediately on a cascade whose weight beats the
dither. -/
lemma selectAux_pos_stop (data : DDGIData) (worldPosition : Vec3) (dither : ℝ)
    (fuel k : ℕ) (hw : ddgiCascadeWeight data worldPosition k > dither) :
    ddgiSelectAux data worldPosition dither (fuel + 1) k = k := by
  simp only [ddgiSelectAux, if_pos hw]

/-- Claim C7: when a cascade is selected and each of the 8 enclosing corner
probes carries the INACTIVE state in the probe-state atlas, the sampler
returns exactly the zero vector, for every normal, bias and dither; this is
the zero-total-weight path, distinct from the missing-cascade fallback. -/
theorem all_inactive_returns_zero (srgbBlending : Bool) (data : DDGIData)
    (texs : DDGITextures) (octFn : Vec3 → ℝ × ℝ)
    (worldPosition worldNormal : Vec3) (bias dither : ℝ)
    (hsel : ddgiSelectCascade data worldPosition dither < data.CascadesCount)
    (hinact : ∀ i, i < 8 →
      (texs.state (GetDDGIProbeTexelCoords data
        (ddgiSelectCascade data worldPosition dither)
        (GetDDGIScrollingProbeIndex data (ddgiSelectCascade data worldPosition dither)
          (ddgiCornerCoords data
            (ddgiBaseProbeCoords data (ddgiSelectCascade data worldPosition dither)
              worldPosition) i)))).w = 1) :
    SampleDDGIIrradiance srgbBlending data texs octFn worldPosition worldNormal
      bias dither = ⟨0, 0, 0⟩ := by
  have hzero : ∀ i, i < 8 → ddgiCornerContribution srgbBlending data texs octFn
      worldPosition worldNormal bias (ddgiSelectCascade data worldPosition dither) i
      = ⟨0, 0, 0, 0⟩ := by
    intro i hi
    simp only [ddgiCornerContribution]
    rw [if_pos (hinact i hi)]
  have hx0 : (Finset.sum (Finset.range 8) fun i =>
      (ddgiCornerContribution srgbBlending data texs octFn worldPosition worldNormal
        bias (ddgiSelectCascade data worldPosition dither) i).x) = 0 :=
    Finset.sum_eq_zero fun i hi => by rw [hzero i (Finset.mem_range.mp hi)]
  have hy0 : (Finset.sum (Finset.range 8) fun i =>
      (ddgiCornerContribution srgbBlending data texs octFn worldPosition worldNormal
        bias (ddgiSelectCascade data worldPosition dither) i).y) = 0 :=
    Finset.sum_eq_zero fun i hi => by rw [hzero i (Finset.mem_range.mp hi)]
  have hz0 : (Finset.sum (Finset.range 8) fun i =>
      (ddgiCornerContribution srgbBlending data texs octFn worldPosition worldNormal
        bias (ddgiSelectCascade data worldPosition dither) i).z) = 0 :=
    Finset.sum_eq_zero fun i hi => by rw [hzero i (Finset.mem_range.mp hi)]
  have hw0 : (Finset.sum (Finset.range 8) fun i =>
      (ddgiCornerContribution srgbBlending data texs octFn worldPosition worldNormal
        bias (ddgiSelectCascade data worldPosition dither) i).w) = 0 :=
    Finset.sum_eq_zero fun i hi => by rw [hzero i (Finset.mem_range.mp hi)]
  simp only [SampleDDGIIrradiance]
  rw [if_neg (Nat.ne_of_lt hsel), hx0, hy0, hz0, hw0]
  norm_num

/-- Fixed all-INACTIVE probe-state textures. -/
def inactiveTextures : DDGITextures where
  state := fun _ => ⟨0, 0, 0, 1⟩
  distance := fun _ => (100, 10000)
  irradiance := fun _ => ⟨1, 1, 1⟩

theorem all_inactive_returns_zero_witness :
    SampleDDGIIrradiance false exampleData inactiveTextures exampleOct
      ⟨0, 0, 0⟩ ⟨0, 1, 0⟩ 0 0 = ⟨0, 0, 0⟩ := by
  have hw : ddgiCascadeWeight exampleData ⟨0, 0, 0⟩ 0 = 1 := by
    simp only [ddgiCascadeWeight, exampleData, Min3, Vec3.sub, Vec3.vabs,
      Vec3.add, Vec3.scale, Vec4.xyz, saturate]
    norm_num [min_def, max_def]
  have hsel : ddgiSelectCascade exampleData ⟨0, 0, 0⟩ 0 <
      exampleData.CascadesCount := by
    obtain ⟨a1, a2, a3, a4⟩ :=
      selectAux_spec exampleData ⟨0, 0, 0⟩ 0 exampleData.CascadesCount 0
    simp only [ddgiSelectCascade]
    by_contra hnot
    have hcc : exampleData.CascadesCount = 2 := rfl
    have heq : ddgiSelectAux exampleData ⟨0, 0, 0⟩ 0 exampleData.CascadesCount 0 =
        exampleData.CascadesCount := by omega
    have h0 := a4 0 (Nat.zero_le 0) (by omega)
    rw [hw] at h0
    exact h0 (by norm_num)
  exact all_inactive_returns_zero false exampleData inactiveTextures exampleOct
    ⟨0, 0, 0⟩ ⟨0, 1, 0⟩ 0 0 hsel (fun i _ => rfl)

/-- The configuration of the concrete spec scenario: a 2 x 2 x 2 grid, one
cascade, origin zero, spacing two, no scrolling; the remaining
floating-point parameters stay free. -/
def c3Data (viewDir fallback : Vec3) (gamma historyWeight rayMax intensity
    padding : ℝ) (raysRotation : Vec4) (raysCount : ℕ) : DDGIData where
  ProbesOriginAndSpacing := fun _ => ⟨0, 0, 0, 2⟩
  ProbesScrollOffsets := fun _ => ⟨0, 0, 0⟩
  ProbeScrollDirections := fun _ => ⟨0, 0, 0⟩
  ProbesCounts := ⟨2, 2, 2⟩
  CascadesCount := 1
  IrradianceGamma := gamma
  ProbeHistoryWeight := historyWeight
  RayMaxDistance := rayMax
  IndirectLightingIntensity := intensity
  RaysRotation := raysRotation
  ViewDir := viewDir
  RaysCount := raysCount
  FallbackIrradiance := fallback
  Padding0 := padding

/-- The atlases of the concrete spec scenario: every probe ACTIVE with zero
relocation, the distance atlas uniformly holding mean 100 and mean square
10000, the irradiance atlas uniformly holding the value v. -/
def c3Textures (v : Vec3) : DDGITextures where
  state := fun _ => ⟨0, 0, 0, 0⟩
  distance := fun _ => (100, 10000)
  irradiance := fun _ => v

/-- Claim C3: in the concrete scenario with counts (2,2,2), one cascade,
origin zero, spacing two, zero scroll, all probes ACTIVE with zero
relocation, the distance atlas holding mean 100 and mean square 10000
everywhere, the irradiance atlas uniformly holding v and gamma compression
disabled, sampling at the world origin returns v times two pi, for every
unit normal, every bias, and every dither below one. -/
theorem concrete_scenario_two_pi (v viewDir fallback : Vec3)
    (gamma historyWeight rayMax intensity padding : ℝ) (raysRotation : Vec4)
    (raysCount : ℕ) (octFn : Vec3 → ℝ × ℝ) (n : Vec3)
    (hn : Vec3.dot n n = 1) (bias dither : ℝ) (hd : dither < 1) :
    SampleDDGIIrradiance false
      (c3Data viewDir fallback gamma historyWeight rayMax intensity padding
        raysRotation raysCount)
      (c3Textures v) octFn ⟨0, 0, 0⟩ n bias dither =
    ⟨v.x * (2 * Real.pi), v.y * (2 * Real.pi), v.z * (2 * Real.pi)⟩ := by
  set D := c3Data viewDir fallback gamma historyWeight rayMax intensity padding
    raysRotation raysCount with hD
  have hw0 : ddgiCascadeWeight D ⟨0, 0, 0⟩ 0 = 1 := by
    simp only [hD, ddgiCascadeWeight, c3Data, Min3, Vec3.sub, Vec3.vabs,
      Vec3.add, Vec3.scale, Vec4.xyz, saturate]
    norm_num [min_def, max_def]
  have hsel : ddgiSelectCascade D ⟨0, 0, 0⟩ dither = 0 := by
    have hcc : D.CascadesCount = 1 := rfl
    simp only [ddgiSelectCascade, hcc]
    exact selectAux_pos_stop D ⟨0, 0, 0⟩ dither 0 0 (by rw [hw0]; exact hd)
  have hctr : ∀ i ∈ Finset.range 8,
      (ddgiCornerContribution false D (c3Textures v) octFn ⟨0, 0, 0⟩ n bias 0 i).x
        = v.x *
        (ddgiCornerContribution false D (c3Textures v) octFn ⟨0, 0, 0⟩ n bias 0 i).w ∧
      (ddgiCornerContribution false D (c3Textures v) octFn ⟨0, 0, 0⟩ n bias 0 i).y
        = v.y *
        (ddgiCornerContribution false D (c3Textures v) octFn ⟨0, 0, 0⟩ n bias 0 i).w ∧
      (ddgiCornerContribution false D (c3Textures v) octFn ⟨0, 0, 0⟩ n bias 0 i).z
        = v.z *
        (ddgiCornerContribution false D (c3Textures v) octFn ⟨0, 0, 0⟩ n bias 0 i).w ∧
      0 < (ddgiCornerContribution false D (c3Textures v) octFn ⟨0, 0, 0⟩ n bias 0 i).w := by
    intro i _
    have hact : ¬ (((c3Textures v).state (GetDDGIProbeTexelCoords D 0
        (GetDDGIScrollingProbeIndex D 0 (ddgiCornerCoords D
          (ddgiBaseProbeCoords D 0 ⟨0, 0, 0⟩) i)))).w = (1 : ℝ)) := by
      norm_num [c3Textures]
    simp only [ddgiCornerContribution, if_neg hact]
    simp only [c3Textures, Bool.false_eq_true, if_false]
    exact ⟨trivial, trivial, trivial, probeWeight_pos _ _ _ _ _ _⟩
  set S := Finset.sum (Finset.range 8) fun i =>
    (ddgiCornerContribution false D (c3Textures v) octFn ⟨0, 0, 0⟩ n bias 0 i).w
    with hS
  have hSpos : 0 < S := by
    rw [hS]
    exact Finset.sum_pos (fun i hi => (hctr i hi).2.2.2) ⟨0, by decide⟩
  have hSx : (Finset.sum (Finset.range 8) fun i =>
      (ddgiCornerContribution false D (c3Textures v) octFn ⟨0, 0, 0⟩ n bias 0 i).x)
      = v.x * S := by
    rw [hS, Finset.mul_sum]
    exact Finset.sum_congr rfl fun i hi => (hctr i hi).1
  have hSy : (Finset.sum (Finset.range 8) fun i =>
      (ddgiCornerContribution false D (c3Textures v) octFn ⟨0, 0, 0⟩ n bias 0 i).y)
      = v.y * S := by
    rw [hS, Finset.mul_sum]
    exact Finset.sum_congr rfl fun i hi => (hctr i hi).2.1
  have hSz : (Finset.sum (Finset.range 8) fun i =>
      (ddgiCornerContribution false D (c3Textures v) octFn ⟨0, 0, 0⟩ n bias 0 i).z)
      = v.z * S := by
    rw [hS, Finset.mul_sum]
    exact Finset.sum_congr rfl fun i hi => (hctr i hi).2.2.1
  simp only [SampleDDGIIrradiance, hsel]
  rw [if_neg (show ¬ (0 : ℕ) = D.CascadesCount by rw [hD]; simp [c3Data])]
  rw [hSx, hSy, hSz]
  rw [if_pos hSpos]
  simp only [Bool.false_eq_true, if_false]
  have hcancel : ∀ a : ℝ, a * S * (1 / S) = a := by
    intro a
    field_simp
  rw [Vec3.mk.injEq]
  exact ⟨by rw [hcancel], by rw [hcancel], by rw [hcancel]⟩

theorem concrete_scenario_two_pi_witness :
    SampleDDGIIrradiance false
      (c3Data ⟨0, 0, 1⟩ ⟨0, 0, 0⟩ 1 0 0 0 0 ⟨0, 0, 0, 0⟩ 0)
      (c3Textures ⟨1, 2, 3⟩) exampleOct ⟨0, 0, 0⟩ ⟨0, 1, 0⟩ 7 0 =
    ⟨1 * (2 * Real.pi), 2 * (2 * Real.pi), 3 * (2 * Real.pi)⟩ :=
  concrete_scenario_two_pi ⟨1, 2, 3⟩ ⟨0, 0, 1⟩ ⟨0, 0, 0⟩ 1 0 0 0 0 ⟨0, 0, 0, 0⟩ 0
    exampleOct ⟨0, 1, 0⟩ (by norm_num [Vec3.dot]) 7 0 (by norm_num)

/-- Reassembling a flat index from its X remainder, its Z digit and its
Y plane gives the index back, for any dimensions. -/
lemma index_reassemble (X Z i : ℕ) :
    (i / (X * Z)) * (X * Z) + (i % X + X * ((i / X) % Z)) = i := by
  have e1 : i % X + X * (i / X) = i := Nat.mod_add_div i X
  have e2 : (i / X) % Z + Z * (i / X / Z) = i / X := Nat.mod_add_mod (i / X) Z 0 ▸
    Nat.mod_add_div (i / X) Z
  have e3 : i / X / Z = i / (X * Z) := Nat.div_div_eq_div_mul i X Z
  rw [e3] at e2
  calc (i / (X * Z)) * (X * Z) + (i % X + X * ((i / X) % Z))
      = i % X + X * ((i / X) % Z + Z * (i / (X * Z))) := by ring
    _ = i % X + X * (i / X) := by rw [e2]
    _ = i := e1

/-- The three digit extractions applied to an assembled flat index recover
the coordinates, when the coordinates are inside the grid. -/
lemma index_digits (X Z cx cy cz : ℕ) (hx : 0 < X) (hcx : cx < X) (hcz : cz < Z) :
    (cy * (X * Z) + (cx + X * cz)) % X = cx ∧
    (cy * (X * Z) + (cx + X * cz)) / (X * Z) = cy ∧
    ((cy * (X * Z) + (cx + X * cz)) / X) % Z = cz := by
  have hrw : cy * (X * Z) + (cx + X * cz) = cx + X * (cz + Z * cy) := by ring
  have ex : (cy * (X * Z) + (cx + X * cz)) % X = cx := by
    rw [hrw, Nat.add_mul_mod_self_left, Nat.mod_eq_of_lt hcx]
  have ediv : (cy * (X * Z) + (cx + X * cz)) / X = cz + Z * cy := by
    rw [hrw, Nat.add_mul_div_left _ _ hx, Nat.div_eq_of_lt hcx, Nat.zero_add]
  have ez : ((cy * (X * Z) + (cx + X * cz)) / X) % Z = cz := by
    rw [ediv, Nat.add_mul_mod_self_left, Nat.mod_eq_of_lt hcz]
  have hlt : cx + X * cz < X * Z := by
    calc cx + X * cz < X + X * cz := by omega
    _ = X * (cz + 1) := by ring
    _ ≤ X * Z := Nat.mul_le_mul_left X (by omega)
  have ey : (cy * (X * Z) + (cx + X * cz)) / (X * Z) = cy := by
    rw [Nat.add_comm, Nat.mul_comm cy (X * Z),
      Nat.add_mul_div_left _ _ (Nat.mul_pos hx (by omega)),
      Nat.div_eq_of_lt hlt, Nat.zero_add]
  exact ⟨ex, ey, ez⟩

/-- When the product of the x and z counts fits in 32 bits, the wrap on the
coordinate-extraction divisor is inert. -/
lemma coords_unwrapped (data : DDGIData) (i : ℕ)
    (hXZ : data.ProbesCounts.x * data.ProbesCounts.z < 4294967296) :
    GetDDGIProbeCoords data i =
      ⟨i % data.ProbesCounts.x,
       i / (data.ProbesCounts.x * data.ProbesCounts.z),
       (i / data.ProbesCounts.x) % data.ProbesCounts.z⟩ := by
  simp only [GetDDGIProbeCoords, Nat.mod_eq_of_lt hXZ]

/-- When the coordinates are inside the grid and the grid is small enough
that the assembled index fits in 32 bits, every wrap in the flat-index
computation is inert and the uint32 evaluation equals the unbounded one. -/
lemma index_unwrapped (data : DDGIData) (c : NVec3)
    (hcx : c.x < data.ProbesCounts.x) (hcy : c.y < data.ProbesCounts.y)
    (hcz : c.z < data.ProbesCounts.z)
    (hXZ : data.ProbesCounts.x * data.ProbesCounts.z < 4294967296)
    (hprod : data.ProbesCounts.x * data.ProbesCounts.y * data.ProbesCounts.z ≤
      4294967296) :
    GetDDGIProbeIndex data c =
      c.y * (data.ProbesCounts.x * data.ProbesCounts.z)
        + (c.x + data.ProbesCounts.x * c.z) := by
  simp only [GetDDGIProbeIndex]
  have hx0 : 0 < data.ProbesCounts.x := by omega
  have hXz : data.ProbesCounts.x * c.z < data.ProbesCounts.x * data.ProbesCounts.z :=
    mul_lt_mul_of_pos_left hcz hx0
  have hin : c.x + data.ProbesCounts.x * c.z <
      data.ProbesCounts.x * data.ProbesCounts.z := by
    calc c.x + data.ProbesCounts.x * c.z
        < data.ProbesCounts.x + data.ProbesCounts.x * c.z := by omega
      _ = data.ProbesCounts.x * (c.z + 1) := by ring
      _ ≤ data.ProbesCounts.x * data.ProbesCounts.z :=
          Nat.mul_le_mul_left _ (by omega)
  have htot : c.y * (data.ProbesCounts.x * data.ProbesCounts.z)
      + (c.x + data.ProbesCounts.x * c.z) <
      data.ProbesCounts.x * data.ProbesCounts.y * data.ProbesCounts.z :=
    assembled_lt _ _ _ _ _ _ hcx hcy hcz
  have hy4 : c.y * (data.ProbesCounts.x * data.ProbesCounts.z) < 4294967296 := by
    omega
  have htot4 : c.y * (data.ProbesCounts.x * data.ProbesCounts.z)
      + (c.x + data.ProbesCounts.x * c.z) < 4294967296 := by
    omega
  rw [Nat.mod_eq_of_lt hXZ, Nat.mod_eq_of_lt (lt_trans hXz hXZ),
    Nat.mod_eq_of_lt (lt_trans hin hXZ), Nat.mod_eq_of_lt hy4,
    Nat.mod_eq_of_lt htot4]

/-- Configuration exhibiting the uint32 wrap inside the flat-index round
trip: a gigantic x count makes the per-plane product overflow 32 bits. -/
def wrapGridData : DDGIData :=
  { exampleData with ProbesCounts := ⟨2147483648, 1, 3⟩ }

/-- Claim C2 counterexample: with counts (2^31, 1, 3) - positive components,
inside the claim - and the valid flat index 2^31, the uint32 evaluation of
GetDDGIProbeIndex after GetDDGIProbeCoords returns 0 instead of the index,
because the per-plane product 3 times 2^31 wraps modulo 2^32. -/
theorem probe_index_coords_wrap_counterexample :
    0 < wrapGridData.ProbesCounts.x ∧ 0 < wrapGridData.ProbesCounts.y ∧
    0 < wrapGridData.ProbesCounts.z ∧
    2147483648 < wrapGridData.ProbesCounts.x * wrapGridData.ProbesCounts.y *
      wrapGridData.ProbesCounts.z ∧
    GetDDGIProbeIndex wrapGridData (GetDDGIProbeCoords wrapGridData 2147483648) ≠
      2147483648 :=
  ⟨by decide, by decide, by decide, by decide, by decide⟩

/-- Claim C2 (amended): the flat-index / grid-coordinate mapping is a
bijection over the valid range for grid dimensions with positive components,
provided additionally that the per-plane product X*Z is below 2^32 and the
probe count product X*Y*Z is at most 2^32, so that no uint32 operation in
either direction wraps: composing GetDDGIProbeCoords with GetDDGIProbeIndex
is the identity on valid flat indices, and the converse composition is the
identity on valid coordinate triples. The extra bounds are necessary, as the
counterexample theorem shows. -/
theorem probe_index_coords_bijection_bounded (data : DDGIData)
    (hx : 0 < data.ProbesCounts.x) (hy : 0 < data.ProbesCounts.y)
    (hz : 0 < data.ProbesCounts.z)
    (hXZ : data.ProbesCounts.x * data.ProbesCounts.z < 4294967296)
    (hprod : data.ProbesCounts.x * data.ProbesCounts.y * data.ProbesCounts.z ≤
      4294967296) :
    (∀ i, i < data.ProbesCounts.x * data.ProbesCounts.y * data.ProbesCounts.z →
      GetDDGIProbeIndex data (GetDDGIProbeCoords data i) = i) ∧
    (∀ c : NVec3, c.x < data.ProbesCounts.x → c.y < data.ProbesCounts.y →
      c.z < data.ProbesCounts.z →
      GetDDGIProbeCoords data (GetDDGIProbeIndex data c) = c) := by
  constructor
  · intro i hi
    rw [coords_unwrapped data i hXZ]
    rw [index_unwrapped data _ (Nat.mod_lt _ hx) ?_ (Nat.mod_lt _ hz) hXZ hprod]
    · exact index_reassemble data.ProbesCounts.x data.ProbesCounts.z i
    · show i / (data.ProbesCounts.x * data.ProbesCounts.z) < data.ProbesCounts.y
      rw [Nat.div_lt_iff_lt_mul (Nat.mul_pos hx hz)]
      calc i < data.ProbesCounts.x * data.ProbesCounts.y * data.ProbesCounts.z :=
          hi
        _ = data.ProbesCounts.y * (data.ProbesCounts.x * data.ProbesCounts.z) :=
          by ring
  · rintro ⟨cx, cy, cz⟩ hcx hcy hcz
    rw [index_unwrapped data ⟨cx, cy, cz⟩ hcx hcy hcz hXZ hprod]
    rw [coords_unwrapped data _ hXZ]
    obtain ⟨ex, ey, ez⟩ :=
      index_digits data.ProbesCounts.x data.ProbesCounts.z cx cy cz hx hcx hcz
    rw [NVec3.mk.injEq]
    exact ⟨ex, ey, ez⟩

/-- The visibility factor exactly as the spec words it: when the distance to
the probe exceeds the decoded mean, the factor is max(chebyshev cubed, 0.05)
with chebyshev = variance / (variance + (distance - mean) squared) and
variance the absolute difference of mean squared and the second moment;
otherwise the weight is left unchanged (factor one). -/
def ddgiSpecVisibilityFactor (d mean mean2 : ℝ) : ℝ :=
  if d > mean then
    max ((|mean ^ 2 - mean2| / (|mean ^ 2 - mean2| + (d - mean) ^ 2)) ^ 3) 0.05
  else 1

/-- Claim C4: the Chebyshev visibility step of the corner loop, fed with the
two distance-atlas channels each multiplied by 2, multiplies the incoming
weight exactly by the spec factor: on the occluded side it is
max(chebyshev cubed, 0.05) with the variance taken in absolute value, and
when the distance does not exceed the mean the weight is unchanged; a
nonnegative weight stays nonnegative (the absolute value prevents corrupted
moments from producing a negative weight). -/
theorem visibility_factor_spec (w d c1 c2 : ℝ) (hw : 0 ≤ w) :
    ddgiVisibilityStep w d (c1 * 2) (c2 * 2) =
      w * ddgiSpecVisibilityFactor d (c1 * 2) (c2 * 2) ∧
    (¬ d > c1 * 2 → ddgiVisibilityStep w d (c1 * 2) (c2 * 2) = w) ∧
    0 ≤ ddgiVisibilityStep w d (c1 * 2) (c2 * 2) := by
  refine ⟨?_, ?_, ?_⟩
  · by_cases h : d > c1 * 2
    · simp only [ddgiVisibilityStep, ddgiSpecVisibilityFactor, if_pos h, Square]
      have e1 : (c1 * 2) * (c1 * 2) = (c1 * 2) ^ 2 := by ring
      have e2 : (d - c1 * 2) * (d - c1 * 2) = (d - c1 * 2) ^ 2 := by ring
      rw [e1, e2]
      have e3 : |(c1 * 2) ^ 2 - c2 * 2| / (|(c1 * 2) ^ 2 - c2 * 2| + (d - c1 * 2) ^ 2) *
          (|(c1 * 2) ^ 2 - c2 * 2| / (|(c1 * 2) ^ 2 - c2 * 2| + (d - c1 * 2) ^ 2)) *
          (|(c1 * 2) ^ 2 - c2 * 2| / (|(c1 * 2) ^ 2 - c2 * 2| + (d - c1 * 2) ^ 2)) =
          (|(c1 * 2) ^ 2 - c2 * 2| / (|(c1 * 2) ^ 2 - c2 * 2| + (d - c1 * 2) ^ 2)) ^ 3 := by
        ring
      rw [e3]
    · simp only [ddgiVisibilityStep, ddgiSpecVisibilityFactor, if_neg h, mul_one]
  · intro h
    simp only [ddgiVisibilityStep, if_neg h]
  · by_cases h : d > c1 * 2
    · simp only [ddgiVisibilityStep, if_pos h]
      exact mul_nonneg hw (le_trans (by norm_num) (le_max_right _ _))
    · simp only [ddgiVisibilityStep, if_neg h]
      exact hw

theorem visibility_factor_spec_witness :
    ddgiVisibilityStep 1 300 (100 * 2) (10000 * 2) =
      1 * ddgiSpecVisibilityFactor 300 (100 * 2) (10000 * 2) ∧
    (¬ (300 : ℝ) > 100 * 2 → ddgiVisibilityStep 1 300 (100 * 2) (10000 * 2) = 1) ∧
    0 ≤ ddgiVisibilityStep 1 300 (100 * 2) (10000 * 2) :=
  visibility_factor_spec 1 300 100 10000 (by norm_num)

/-- Claim C8: inside the corner loop, the incrementally reconstructed probe
position (base probe world position plus the coordinate delta times the
spacing) coincides with GetDDGIProbeWorldPosition evaluated directly at the
corner coordinates, before the stored relocation vector is added. -/
theorem incremental_position_eq_direct (data : DDGIData) (cascadeIndex : ℕ)
    (base : NVec3) (i : ℕ) (hi : i < 8)
    (hbx : base.x ≤ data.ProbesCounts.x - 1)
    (hby : base.y ≤ data.ProbesCounts.y - 1)
    (hbz : base.z ≤ data.ProbesCounts.z - 1) :
    ddgiIncrementalProbePosition data cascadeIndex base
      (ddgiCornerCoords data base i) =
    GetDDGIProbeWorldPosition data cascadeIndex (ddgiCornerCoords data base i) := by
  have hx : base.x ≤ (ddgiCornerCoords data base i).x := by
    simp only [ddgiCornerCoords]
    omega
  have hy : base.y ≤ (ddgiCornerCoords data base i).y := by
    simp only [ddgiCornerCoords]
    omega
  have hz : base.z ≤ (ddgiCornerCoords data base i).z := by
    simp only [ddgiCornerCoords]
    omega
  simp only [ddgiIncrementalProbePosition, GetDDGIProbeWorldPosition, Vec4.xyz,
    Vec3.mk.injEq]
  refine ⟨?_, ?_, ?_⟩
  · rw [Nat.cast_sub hx]
    ring
  · rw [Nat.cast_sub hy]
    ring
  · rw [Nat.cast_sub hz]
    ring

theorem incremental_position_eq_direct_witness :
    ddgiIncrementalProbePosition exampleData 0 ⟨1, 2, 3⟩
      (ddgiCornerCoords exampleData ⟨1, 2, 3⟩ 5) =
    GetDDGIProbeWorldPosition exampleData 0 (ddgiCornerCoords exampleData ⟨1, 2, 3⟩ 5) :=
  incremental_position_eq_direct exampleData 0 ⟨1, 2, 3⟩ 5 (by decide)
    (by decide) (by decide) (by decide)

/-- One component of the base probe coordinate computation agrees with the
mathematical clamp of the floor, the saturating float-to-uint conversion
included: negative arguments clamp to zero. -/
lemma base_coord_component (q : ℝ) (n : ℕ) (h1 : 1 ≤ n) (h2 : n ≤ 4294967296) :
    ((min (max (ddgiFtoU q) 0) (n - 1) : ℕ) : ℤ) = min (max ⌊q⌋ 0) ((n : ℤ) - 1) := by
  have hf : ((Nat.floor q : ℕ) : ℤ) = max ⌊q⌋ 0 := by
    rw [← Int.floor_toNat]
    omega
  unfold ddgiFtoU
  omega

/-- Claim C5: the base probe coordinate computed by SampleDDGIIrradiance is
clamp(floor((worldPosition - probesOrigin + probesExtent) / spacing), 0,
counts - 1) componentwise, with negative arguments yielding component zero,
for grid dimensions between 1 and 2^32. -/
theorem base_probe_coords_clamp_floor (data : DDGIData) (cascadeIndex : ℕ)
    (worldPosition : Vec3)
    (hx1 : 1 ≤ data.ProbesCounts.x) (hx2 : data.ProbesCounts.x ≤ 4294967296)
    (hy1 : 1 ≤ data.ProbesCounts.y) (hy2 : data.ProbesCounts.y ≤ 4294967296)
    (hz1 : 1 ≤ data.ProbesCounts.z) (hz2 : data.ProbesCounts.z ≤ 4294967296) :
    (((ddgiBaseProbeCoords data cascadeIndex worldPosition).x : ℤ) =
      min (max ⌊(worldPosition.x - (ddgiProbesOrigin data cascadeIndex).x
          + (ddgiProbesExtent data cascadeIndex).x)
          / (data.ProbesOriginAndSpacing cascadeIndex).w⌋ 0)
        ((data.ProbesCounts.x : ℤ) - 1)) ∧
    (((ddgiBaseProbeCoords data cascadeIndex worldPosition).y : ℤ) =
      min (max ⌊(worldPosition.y - (ddgiProbesOrigin data cascadeIndex).y
          + (ddgiProbesExtent data cascadeIndex).y)
          / (data.ProbesOriginAndSpacing cascadeIndex).w⌋ 0)
        ((data.ProbesCounts.y : ℤ) - 1)) ∧
    (((ddgiBaseProbeCoords data cascadeIndex worldPosition).z : ℤ) =
      min (max ⌊(worldPosition.z - (ddgiProbesOrigin data cascadeIndex).z
          + (ddgiProbesExtent data cascadeIndex).z)
          / (data.ProbesOriginAndSpacing cascadeIndex).w⌋ 0)
        ((data.ProbesCounts.z : ℤ) - 1)) := by
  simp only [ddgiBaseProbeCoords]
  exact ⟨base_coord_component _ _ hx1 hx2, base_coord_component _ _ hy1 hy2,
    base_coord_component _ _ hz1 hz2⟩

theorem base_probe_coords_clamp_floor_witness :
    (((ddgiBaseProbeCoords exampleData 0 ⟨-100, 0.5, 100⟩).x : ℤ) =
      min (max ⌊(((-100 : ℝ)) - (ddgiProbesOrigin exampleData 0).x
          + (ddgiProbesExtent exampleData 0).x)
          / (exampleData.ProbesOriginAndSpacing 0).w⌋ 0)
        ((exampleData.ProbesCounts.x : ℤ) - 1)) ∧
    (((ddgiBaseProbeCoords exampleData 0 ⟨-100, 0.5, 100⟩).y : ℤ) =
      min (max ⌊(((0.5 : ℝ)) - (ddgiProbesOrigin exampleData 0).y
          + (ddgiProbesExtent exampleData 0).y)
          / (exampleData.ProbesOriginAndSpacing 0).w⌋ 0)
        ((exampleData.ProbesCounts.y : ℤ) - 1)) ∧
    (((ddgiBaseProbeCoords exampleData 0 ⟨-100, 0.5, 100⟩).z : ℤ) =
      min (max ⌊(((100 : ℝ)) - (ddgiProbesOrigin exampleData 0).z
          + (ddgiProbesExtent exampleData 0).z)
          / (exampleData.ProbesOriginAndSpacing 0).w⌋ 0)
        ((exampleData.ProbesCounts.z : ℤ) - 1)) :=
  base_probe_coords_clamp_floor exampleData 0 ⟨-100, 0.5, 100⟩ (by decide) (by decide)
    (by decide) (by decide) (by decide) (by decide)

/-- One axis of the probe UV bound: scaling the normalized coordinate back by
the atlas pixel size lands in the inner band of the probe texel block. -/
lemma uv_component_bounds (cN res : ℕ) (o T : ℝ) (hT : 0 < T) (ho : |o| ≤ 1) :
    (cN : ℝ) * ((res : ℝ) + 2) + 1 ≤
      (((cN : ℝ) * ((res : ℝ) + 2) + ((res : ℝ) + 2) * 0.5
        + o * ((res : ℝ) * 0.5)) / T) * T ∧
    (((cN : ℝ) * ((res : ℝ) + 2) + ((res : ℝ) + 2) * 0.5
        + o * ((res : ℝ) * 0.5)) / T) * T ≤
      (cN : ℝ) * ((res : ℝ) + 2) + (((res : ℝ) + 2) - 1) := by
  rw [div_mul_cancel₀ _ (ne_of_gt hT)]
  obtain ⟨h1, h2⟩ := abs_le.mp ho
  have hres : (0 : ℝ) ≤ (res : ℝ) := Nat.cast_nonneg res
  constructor
  · nlinarith
  · nlinarith

/-- Claim C6: for a valid cascade and probe index, atlas resolutions 6 and
14, and octahedral coordinates within the unit square, the UV returned by
GetDDGIProbeUV scaled by the atlas pixel size stays within the inner band of
the probe texel block: at least one texel after the block start and at least
one texel before the block end, never inside the one-texel border. -/
theorem probe_uv_inside_block (data : DDGIData) (cascadeIndex probeIndex res : ℕ)
    (oct : ℝ × ℝ)
    (hx : 0 < data.ProbesCounts.x) (hy : 0 < data.ProbesCounts.y)
    (hz : 0 < data.ProbesCounts.z)
    (hci : cascadeIndex < data.CascadesCount)
    (hpi : probeIndex < data.ProbesCounts.x * data.ProbesCounts.y * data.ProbesCounts.z)
    (hres : res = 6 ∨ res = 14)
    (ho1 : |oct.1| ≤ 1) (ho2 : |oct.2| ≤ 1) :
    (((GetDDGIProbeTexelCoords data cascadeIndex probeIndex).1 : ℝ) * ((res : ℝ) + 2) + 1 ≤
        (GetDDGIProbeUV data cascadeIndex probeIndex oct res).1 *
          (((data.ProbesCounts.x * data.ProbesCounts.y : ℕ) : ℝ) * ((res : ℝ) + 2)) ∧
      (GetDDGIProbeUV data cascadeIndex probeIndex oct res).1 *
          (((data.ProbesCounts.x * data.ProbesCounts.y : ℕ) : ℝ) * ((res : ℝ) + 2)) ≤
        ((GetDDGIProbeTexelCoords data cascadeIndex probeIndex).1 : ℝ) * ((res : ℝ) + 2)
          + (((res : ℝ) + 2) - 1)) ∧
    (((GetDDGIProbeTexelCoords data cascadeIndex probeIndex).2 : ℝ) * ((res : ℝ) + 2) + 1 ≤
        (GetDDGIProbeUV data cascadeIndex probeIndex oct res).2 *
          (((data.ProbesCounts.z * data.CascadesCount : ℕ) : ℝ) * ((res : ℝ) + 2)) ∧
      (GetDDGIProbeUV data cascadeIndex probeIndex oct res).2 *
          (((data.ProbesCounts.z * data.CascadesCount : ℕ) : ℝ) * ((res : ℝ) + 2)) ≤
        ((GetDDGIProbeTexelCoords data cascadeIndex probeIndex).2 : ℝ) * ((res : ℝ) + 2)
          + (((res : ℝ) + 2) - 1)) := by
  have hB : (0 : ℝ) < (res : ℝ) + 2 := by positivity
  have hT1 : (0 : ℝ) < ((data.ProbesCounts.x * data.ProbesCounts.y : ℕ) : ℝ) * ((res : ℝ) + 2) := by
    have : 0 < data.ProbesCounts.x * data.ProbesCounts.y := Nat.mul_pos hx hy
    have hc : (0 : ℝ) < ((data.ProbesCounts.x * data.ProbesCounts.y : ℕ) : ℝ) :=
      Nat.cast_pos.mpr this
    exact mul_pos hc hB
  have hT2 : (0 : ℝ) < ((data.ProbesCounts.z * data.CascadesCount : ℕ) : ℝ) * ((res : ℝ) + 2) := by
    have hcc : 0 < data.CascadesCount := by omega
    have : 0 < data.ProbesCounts.z * data.CascadesCount := Nat.mul_pos hz hcc
    have hc : (0 : ℝ) < ((data.ProbesCounts.z * data.CascadesCount : ℕ) : ℝ) :=
      Nat.cast_pos.mpr this
    exact mul_pos hc hB
  simp only [GetDDGIProbeUV]
  exact ⟨uv_component_bounds _ _ _ _ hT1 ho1, uv_component_bounds _ _ _ _ hT2 ho2⟩

theorem probe_uv_inside_block_witness :
    (((GetDDGIProbeTexelCoords exampleData 1 3).1 : ℝ) * ((14 : ℕ) + 2) + 1 ≤
        (GetDDGIProbeUV exampleData 1 3 (1, -1) 14).1 *
          (((exampleData.ProbesCounts.x * exampleData.ProbesCounts.y : ℕ) : ℝ) *
            ((14 : ℕ) + 2)) ∧
      (GetDDGIProbeUV exampleData 1 3 (1, -1) 14).1 *
          (((exampleData.ProbesCounts.x * exampleData.ProbesCounts.y : ℕ) : ℝ) *
            ((14 : ℕ) + 2)) ≤
        ((GetDDGIProbeTexelCoords exampleData 1 3).1 : ℝ) * ((14 : ℕ) + 2)
          + (((14 : ℕ) + 2) - 1)) ∧
    (((GetDDGIProbeTexelCoords exampleData 1 3).2 : ℝ) * ((14 : ℕ) + 2) + 1 ≤
        (GetDDGIProbeUV exampleData 1 3 (1, -1) 14).2 *
          (((exampleData.ProbesCounts.z * exampleData.CascadesCount : ℕ) : ℝ) *
            ((14 : ℕ) + 2)) ∧
      (GetDDGIProbeUV exampleData 1 3 (1, -1) 14).2 *
          (((exampleData.ProbesCounts.z * exampleData.CascadesCount : ℕ) : ℝ) *
            ((14 : ℕ) + 2)) ≤
        ((GetDDGIProbeTexelCoords exampleData 1 3).2 : ℝ) * ((14 : ℕ) + 2)
          + (((14 : ℕ) + 2) - 1)) :=
  probe_uv_inside_block exampleData 1 3 14 (1, -1) (by decide) (by decide) (by decide)
    (by decide) (by decide) (Or.inr rfl) (by norm_num) (by norm_num)

theorem probe_index_coords_bijection_bounded_witness :
    GetDDGIProbeIndex exampleData (GetDDGIProbeCoords exampleData 17) = 17 ∧
    GetDDGIProbeCoords exampleData (GetDDGIProbeIndex exampleData ⟨1, 2, 3⟩) =
      ⟨1, 2, 3⟩ :=
  ⟨(probe_index_coords_bijection_bounded exampleData (by decide) (by decide)
      (by decide) (by decide) (by decide)).1 17 (by decide),
   (probe_index_coords_bijection_bounded exampleData (by decide) (by decide)
      (by decide) (by decide) (by decide)).2 ⟨1, 2, 3⟩ (by decide) (by decide)
      (by decide)⟩

end

end DDGI
